import Mathlib

/-!
Verification of the format-opening subsystem and the bitflag wrappers of a
Rust binding layer over a native multimedia library (rust-ffmpeg excerpt).

The native layer (libavformat) is modelled as an oracle `NativeEnv` giving
the integer return value of each native entry point.  Each Rust function in
`src/format/mod.rs` is embedded as a Lean function that mirrors its control
flow exactly and additionally records the ordered list of native calls and
ownership events it performs (`Event`).  A result of `none` models a Rust
panic (an `unwrap()` failure) escaping the function; `some (r, tr)` models a
normal return of `r` with event trace `tr`.
-/

/-- The bits of the packet flag constant `AV_PKT_FLAG_KEY`.
Modelled from the spec: the constant's value comes from the wrapped native
library's headers (the `ffi` crate), which are outside the excerpt; the
properties proved below do not depend on the concrete value. -/
def AV_PKT_FLAG_KEY : Nat := 1

/-- The bits of the packet flag constant `AV_PKT_FLAG_CORRUPT`.
Modelled from the spec: value from the native headers, outside the excerpt. -/
def AV_PKT_FLAG_CORRUPT : Nat := 2

/-- The bits of the resampling flag constant `SWR_FLAG_RESAMPLE`.
Modelled from the spec: value from the native headers, outside the excerpt. -/
def SWR_FLAG_RESAMPLE : Nat := 1

/-- The bits of the frame flag constant `AV_FRAME_FLAG_CORRUPT`.
Modelled from the spec: value from the native headers, outside the excerpt. -/
def AV_FRAME_FLAG_CORRUPT : Nat := 1

/-- Union of all declared bits of the packet `Flags` type
(`src/codec/packet/flag.rs`: constants `KEY` and `CORRUPT`). -/
def packet_ALL : Nat := AV_PKT_FLAG_KEY ||| AV_PKT_FLAG_CORRUPT

/-- Union of all declared bits of the resampling `Flags` type
(`src/software/resampling/flag.rs`: constant `FORCE`). -/
def resample_ALL : Nat := SWR_FLAG_RESAMPLE

/-- Union of all declared bits of the frame `Flags` type
(`src/util/frame/flag.rs`: constant `CORRUPT`). -/
def frame_ALL : Nat := AV_FRAME_FLAG_CORRUPT

/-- Bitwise union of two flag values (the `BitOr` impl generated by the
`bitflags!` macro: union of the underlying `c_int` bit patterns).  A flag
value is represented by its underlying bit pattern, a `Nat` below `2^32`
standing for the two's-complement image of the `c_int`; the declared
constants are small positives so no wrap-around arises in these operations.
Modelled from the spec: the macro expansion is outside the excerpt. -/
def flags_union (a b : Nat) : Nat := a ||| b

/-- Bitwise intersection of two flag values (the `BitAnd` impl generated by
the `bitflags!` macro).  Modelled from the spec: the macro expansion is
outside the excerpt. -/
def flags_inter (a b : Nat) : Nat := a &&& b

/-- Checked construction of a flag value from raw bits (`from_bits` of the
`bitflags!` macro): succeeds exactly when every set bit lies in the declared
set `all`.  Modelled from the spec: the macro expansion is outside the
excerpt. -/
def from_bits (all b : Nat) : Option Nat :=
  if b &&& all = b then some b else none

/-- Truncating construction of a flag value from raw bits
(`from_bits_truncate` of the `bitflags!` macro): bits outside the declared
set `all` are masked away, construction never fails.  Modelled from the
spec: the macro expansion is outside the excerpt; the spec fixes the
masking semantics for unknown bits. -/
def from_bits_truncate (all b : Nat) : Nat := b &&& all

/-- The tagged format descriptor (`Format` enum): an input (demuxer) or an
output (muxer) format.  The embedded functions only dispatch on the tag, so
the native descriptor pointer is not modelled. -/
inductive Format
  | Input
  | Output
deriving DecidableEq

/-- Tag of the context handle a successful open returns: `Context::Input`
wrapping `context::Input`, or `Context::Output` wrapping `context::Output`. -/
inductive Ctx
  | input
  | output
deriving DecidableEq

/-- The structured error value.  Modelled from the spec: `Error` itself
lives outside the excerpt; per the spec it is a typed error carrying the
native integer status code, built by `Error::from` from any non-zero (or,
for probing, negative) native return value. -/
structure Error where
  code : Int
deriving DecidableEq

/-- `Error::from(e)`: wrap the native return code in the structured error. -/
def Error.fromCode (e : Int) : Error := ⟨e⟩

/-- Oracle for the native layer: the integer value each native entry point
returns when the embedded function calls it. -/
structure NativeEnv where
  open_input_ret : Int
  find_stream_info_ret : Int
  alloc_output_context2_ret : Int
  avio_open_ret : Int
  avio_open2_ret : Int
deriving DecidableEq

/-- One observable step of an embedded function: a native call together
with its return value (and, for the calls that may take one, whether the
disowned options dictionary was passed), or an ownership event on the Rust
side (`Dictionary::disown`, `Dictionary::own`, wrapping the raw context
into an owning handle, installing the interrupt callback). -/
inductive Event
  | avformat_open_input (ret : Int) (dictPassed : Bool)
  | avformat_find_stream_info (ret : Int)
  | avformat_alloc_output_context2 (ret : Int)
  | avio_open (ret : Int)
  | avio_open2 (ret : Int) (dictPassed : Bool)
  | avformat_close_input
  | avformat_alloc_context
  | set_interrupt_callback
  | dict_disown
  | dict_own
  | wrap_input
  | wrap_output
deriving DecidableEq

/-- `CString::new(bytes)`: fails (returns `None`, which `.unwrap()` turns
into a panic) exactly when the bytes contain a null byte; otherwise yields
the null-terminated byte string. -/
def cstring_new (bytes : List Nat) : Option (List Nat) :=
  if bytes.contains 0 then none else some (bytes ++ [0])

/-- `from_path` (unix variant, `src/format/mod.rs` lines 56-61):
`CString::new(path.as_os_str().as_bytes()).unwrap()`.  The path is its
OS-level byte representation; `none` models the `.unwrap()` panic. -/
def from_path (bytes : List Nat) : Option (List Nat) :=
  cstring_new bytes

/-- `from_path` (non-unix variant, lines 63-66):
`CString::new(path.to_str().unwrap()).unwrap()`.  The argument is the
result of `path.to_str()` (`none` when the path is not valid text, in
which case the first `.unwrap()` panics). -/
def from_path_nonunix (toStr : Option (List Nat)) : Option (List Nat) :=
  match toStr with
  | none => none
  | some s => cstring_new s

/-- `format::open` (lines 68-103): dispatch on the format tag; input:
`avformat_open_input` then `avformat_find_stream_info` (success when the
probe returns non-negative); output: `avformat_alloc_output_context2` then
`avio_open`.  Note: on probe failure the context is NOT closed here. -/
def fmt_open (env : NativeEnv) (format : Format) (pathBytes : List Nat) :
    Option (Except Error Ctx × List Event) :=
  match from_path pathBytes with
  | none => none
  | some _ =>
    match format with
    | .Input =>
      if env.open_input_ret = 0 then
        if env.find_stream_info_ret ≥ 0 then
          some (.ok .input,
            [.avformat_open_input 0 false,
             .avformat_find_stream_info env.find_stream_info_ret,
             .wrap_input])
        else
          some (.error (Error.fromCode env.find_stream_info_ret),
            [.avformat_open_input 0 false,
             .avformat_find_stream_info env.find_stream_info_ret])
      else
        some (.error (Error.fromCode env.open_input_ret),
          [.avformat_open_input env.open_input_ret false])
    | .Output =>
      if env.alloc_output_context2_ret = 0 then
        if env.avio_open_ret = 0 then
          some (.ok .output,
            [.avformat_alloc_output_context2 0, .avio_open 0, .wrap_output])
        else
          some (.error (Error.fromCode env.avio_open_ret),
            [.avformat_alloc_output_context2 0,
             .avio_open env.avio_open_ret])
      else
        some (.error (Error.fromCode env.alloc_output_context2_ret),
          [.avformat_alloc_output_context2 env.alloc_output_context2_ret])

/-- `format::open_with` (lines 105-146): like `fmt_open` but the options
dictionary is disowned up front; the Input branch passes it to
`avformat_open_input` and reclaims it with `Dictionary::own` right after
the call; the Output branch never passes it to any call and never reclaims
it, and opens the sink with plain `avio_open`. -/
def fmt_open_with (env : NativeEnv) (format : Format) (pathBytes : List Nat) :
    Option (Except Error Ctx × List Event) :=
  match from_path pathBytes with
  | none => none
  | some _ =>
    match format with
    | .Input =>
      if env.open_input_ret = 0 then
        if env.find_stream_info_ret ≥ 0 then
          some (.ok .input,
            [.dict_disown, .avformat_open_input 0 true, .dict_own,
             .avformat_find_stream_info env.find_stream_info_ret,
             .wrap_input])
        else
          some (.error (Error.fromCode env.find_stream_info_ret),
            [.dict_disown, .avformat_open_input 0 true, .dict_own,
             .avformat_find_stream_info env.find_stream_info_ret])
      else
        some (.error (Error.fromCode env.open_input_ret),
          [.dict_disown, .avformat_open_input env.open_input_ret true,
           .dict_own])
    | .Output =>
      if env.alloc_output_context2_ret = 0 then
        if env.avio_open_ret = 0 then
          some (.ok .output,
            [.dict_disown, .avformat_alloc_output_context2 0, .avio_open 0,
             .wrap_output])
        else
          some (.error (Error.fromCode env.avio_open_ret),
            [.dict_disown, .avformat_alloc_output_context2 0,
             .avio_open env.avio_open_ret])
      else
        some (.error (Error.fromCode env.alloc_output_context2_ret),
          [.dict_disown,
           .avformat_alloc_output_context2 env.alloc_output_context2_ret])

/-- `format::input` (lines 148-165): `avformat_open_input` with no explicit
format and no dictionary; on probe failure the context IS closed with
`avformat_close_input` before the error is returned. -/
def fmt_input (env : NativeEnv) (pathBytes : List Nat) :
    Option (Except Error Ctx × List Event) :=
  match from_path pathBytes with
  | none => none
  | some _ =>
    if env.open_input_ret = 0 then
      if env.find_stream_info_ret ≥ 0 then
        some (.ok .input,
          [.avformat_open_input 0 false,
           .avformat_find_stream_info env.find_stream_info_ret,
           .wrap_input])
      else
        some (.error (Error.fromCode env.find_stream_info_ret),
          [.avformat_open_input 0 false,
           .avformat_find_stream_info env.find_stream_info_ret,
           .avformat_close_input])
    else
      some (.error (Error.fromCode env.open_input_ret),
        [.avformat_open_input env.open_input_ret false])

/-- `format::input_with_dictionary` (lines 167-191): like `fmt_input` but
the dictionary is disowned, passed to `avformat_open_input`, and reclaimed
with `Dictionary::own` immediately after the call on every path. -/
def fmt_input_with_dictionary (env : NativeEnv) (pathBytes : List Nat) :
    Option (Except Error Ctx × List Event) :=
  match from_path pathBytes with
  | none => none
  | some _ =>
    if env.open_input_ret = 0 then
      if env.find_stream_info_ret ≥ 0 then
        some (.ok .input,
          [.dict_disown, .avformat_open_input 0 true, .dict_own,
           .avformat_find_stream_info env.find_stream_info_ret,
           .wrap_input])
      else
        some (.error (Error.fromCode env.find_stream_info_ret),
          [.dict_disown, .avformat_open_input 0 true, .dict_own,
           .avformat_find_stream_info env.find_stream_info_ret,
           .avformat_close_input])
    else
      some (.error (Error.fromCode env.open_input_ret),
        [.dict_disown, .avformat_open_input env.open_input_ret true,
         .dict_own])

/-- `format::input_with_interrupt` (lines 193-214): a context is
pre-allocated with `avformat_alloc_context` and the interrupt callback is
installed on it before `avformat_open_input`; the open/probe/cleanup
sequence is then the same as in `fmt_input`.  (In the source the
allocation precedes the `from_path` call; a panic discards the trace in
this model, so the panic path is unaffected.) -/
def fmt_input_with_interrupt (env : NativeEnv) (pathBytes : List Nat) :
    Option (Except Error Ctx × List Event) :=
  match from_path pathBytes with
  | none => none
  | some _ =>
    if env.open_input_ret = 0 then
      if env.find_stream_info_ret ≥ 0 then
        some (.ok .input,
          [.avformat_alloc_context, .set_interrupt_callback,
           .avformat_open_input 0 false,
           .avformat_find_stream_info env.find_stream_info_ret,
           .wrap_input])
      else
        some (.error (Error.fromCode env.find_stream_info_ret),
          [.avformat_alloc_context, .set_interrupt_callback,
           .avformat_open_input 0 false,
           .avformat_find_stream_info env.find_stream_info_ret,
           .avformat_close_input])
    else
      some (.error (Error.fromCode env.open_input_ret),
        [.avformat_alloc_context, .set_interrupt_callback,
         .avformat_open_input env.open_input_ret false])

/-- `format::output` (lines 216-230): `avformat_alloc_output_context2` with
auto-detected format, then `avio_open`; on sink-open failure the allocated
context is NOT freed. -/
def fmt_output (env : NativeEnv) (pathBytes : List Nat) :
    Option (Except Error Ctx × List Event) :=
  match from_path pathBytes with
  | none => none
  | some _ =>
    if env.alloc_output_context2_ret = 0 then
      if env.avio_open_ret = 0 then
        some (.ok .output,
          [.avformat_alloc_output_context2 0, .avio_open 0, .wrap_output])
      else
        some (.error (Error.fromCode env.avio_open_ret),
          [.avformat_alloc_output_context2 0,
           .avio_open env.avio_open_ret])
    else
      some (.error (Error.fromCode env.alloc_output_context2_ret),
        [.avformat_alloc_output_context2 env.alloc_output_context2_ret])

/-- `format::output_with` (lines 232-259): the dictionary is disowned up
front; when allocation succeeds the sink is opened with `avio_open2`
taking the dictionary, which is reclaimed right after the call; when
allocation fails the function returns without reclaiming the dictionary. -/
def fmt_output_with (env : NativeEnv) (pathBytes : List Nat) :
    Option (Except Error Ctx × List Event) :=
  match from_path pathBytes with
  | none => none
  | some _ =>
    if env.alloc_output_context2_ret = 0 then
      if env.avio_open2_ret = 0 then
        some (.ok .output,
          [.dict_disown, .avformat_alloc_output_context2 0,
           .avio_open2 0 true, .dict_own, .wrap_output])
      else
        some (.error (Error.fromCode env.avio_open2_ret),
          [.dict_disown, .avformat_alloc_output_context2 0,
           .avio_open2 env.avio_open2_ret true, .dict_own])
    else
      some (.error (Error.fromCode env.alloc_output_context2_ret),
        [.dict_disown,
         .avformat_alloc_output_context2 env.alloc_output_context2_ret])

/-- `format::output_as` (lines 261-276): like `fmt_output` but the format
is resolved by name; `CString::new(format).unwrap()` panics (`none`) when
the name contains a null byte. -/
def fmt_output_as (env : NativeEnv) (pathBytes fmtBytes : List Nat) :
    Option (Except Error Ctx × List Event) :=
  match from_path pathBytes with
  | none => none
  | some _ =>
    match cstring_new fmtBytes with
    | none => none
    | some _ =>
      if env.alloc_output_context2_ret = 0 then
        if env.avio_open_ret = 0 then
          some (.ok .output,
            [.avformat_alloc_output_context2 0, .avio_open 0, .wrap_output])
        else
          some (.error (Error.fromCode env.avio_open_ret),
            [.avformat_alloc_output_context2 0,
             .avio_open env.avio_open_ret])
      else
        some (.error (Error.fromCode env.alloc_output_context2_ret),
          [.avformat_alloc_output_context2 env.alloc_output_context2_ret])

/-- `format::output_as_with` (lines 278-310): like `fmt_output_with` but
the format is resolved by name, with the same `.unwrap()` panic on a name
containing a null byte. -/
def fmt_output_as_with (env : NativeEnv) (pathBytes fmtBytes : List Nat) :
    Option (Except Error Ctx × List Event) :=
  match from_path pathBytes with
  | none => none
  | some _ =>
    match cstring_new fmtBytes with
    | none => none
    | some _ =>
      if env.alloc_output_context2_ret = 0 then
        if env.avio_open2_ret = 0 then
          some (.ok .output,
            [.dict_disown, .avformat_alloc_output_context2 0,
             .avio_open2 0 true, .dict_own, .wrap_output])
        else
          some (.error (Error.fromCode env.avio_open2_ret),
            [.dict_disown, .avformat_alloc_output_context2 0,
             .avio_open2 env.avio_open2_ret true, .dict_own])
      else
        some (.error (Error.fromCode env.alloc_output_context2_ret),
          [.dict_disown,
           .avformat_alloc_output_context2 env.alloc_output_context2_ret])

/-- Whether an event is the reclaim of the options dictionary
(`Dictionary::own`). -/
def Event.isDictOwn : Event → Bool
  | .dict_own => true
  | _ => false

/-- Whether an event is the hand-off of the options dictionary
(`Dictionary::disown` via `options.disown()`). -/
def Event.isDictDisown : Event → Bool
  | .dict_disown => true
  | _ => false

/-- Whether an event is `avformat_close_input`. -/
def Event.isCloseInput : Event → Bool
  | .avformat_close_input => true
  | _ => false

/-- Whether an event allocates a native context: a successful
`avformat_open_input`, a successful `avformat_alloc_output_context2`, or
`avformat_alloc_context`. -/
def Event.isCtxAlloc : Event → Bool
  | .avformat_open_input 0 _ => true
  | .avformat_alloc_output_context2 0 => true
  | .avformat_alloc_context => true
  | _ => false

/-- Whether an event relinquishes the raw context: closing it
(`avformat_close_input`) or transferring ownership into an owning handle
(`wrap`). -/
def Event.isCtxRelease : Event → Bool
  | .avformat_close_input => true
  | .wrap_input => true
  | .wrap_output => true
  | _ => false

/-- Whether an event is an `avio_open2` call that was passed the disowned
options dictionary. -/
def Event.isAvioOpen2Dict : Event → Bool
  | .avio_open2 _ true => true
  | _ => false

/-- Whether an event is a plain `avio_open` call. -/
def Event.isAvioOpen : Event → Bool
  | .avio_open _ => true
  | _ => false

/-- The trace reclaims the options dictionary (contains `Dictionary::own`). -/
def dictReclaimed (tr : List Event) : Bool := tr.any Event.isDictOwn

/-- The trace hands the options dictionary off (contains `disown`). -/
def dictDisowned (tr : List Event) : Bool := tr.any Event.isDictDisown

/-- The trace closes a context with `avformat_close_input`. -/
def closedInput (tr : List Event) : Bool := tr.any Event.isCloseInput

/-- The trace allocates a native context at some step. -/
def ctxAllocated (tr : List Event) : Bool := tr.any Event.isCtxAlloc

/-- The trace releases the context (close or ownership transfer). -/
def ctxReleased (tr : List Event) : Bool := tr.any Event.isCtxRelease

/-- The call leaks a native context: one was allocated and the trace
neither closes it nor transfers it into an owning handle. -/
def ctxLeaked (tr : List Event) : Bool := ctxAllocated tr && !(ctxReleased tr)

/-- The trace opens the sink via `avio_open2` with the dictionary. -/
def sinkViaOpen2Dict (tr : List Event) : Bool := tr.any Event.isAvioOpen2Dict

/-- The trace opens the sink via plain `avio_open`. -/
def sinkViaOpen (tr : List Event) : Bool := tr.any Event.isAvioOpen

/-- Oracle where every native call succeeds. -/
def envZero : NativeEnv := ⟨0, 0, 0, 0, 0⟩

/-- Oracle where `avformat_open_input` succeeds and
`avformat_find_stream_info` fails with `-1`. -/
def envProbeFail : NativeEnv := ⟨0, -1, 0, 0, 0⟩

/-- Oracle where `avformat_find_stream_info` returns the positive value
`1` (a legal success value for the native probe). -/
def envProbePos : NativeEnv := ⟨0, 1, 0, 0, 0⟩

/-- Oracle where `avformat_open_input` fails with `-2`. -/
def envOpenFail : NativeEnv := ⟨-2, 0, 0, 0, 0⟩

/-- Oracle where `avformat_alloc_output_context2` fails with `-3`. -/
def envAllocFail : NativeEnv := ⟨0, 0, -3, 0, 0⟩

/-- Oracle where allocation succeeds and both sink-open calls fail
with `-5`. -/
def envSinkFail : NativeEnv := ⟨0, 0, 0, -5, -5⟩

/-- C1 counterexample: `open_with` called with an output format disowns
the options dictionary and returns — here even on the success path —
without ever reclaiming it with `Dictionary::own`, so the dictionary is
left in the disowned state and its native allocation leaks. -/
theorem C1_counterexample :
    (fmt_open_with envZero .Output [65]).map
      (fun x => (dictDisowned x.2, dictReclaimed x.2)) = some (true, false) := by
  decide

/-- C1 (amended): the options dictionary is reclaimed on every exit path
of `input_with_dictionary` and of `open_with` with an input format; in
`output_with` and `output_as_with` it is reclaimed exactly on the paths
where output-context allocation succeeded and is left disowned when
allocation fails; `open_with` with an output format never reclaims it on
any path. -/
theorem C1_theorem (env : NativeEnv) (p f : List Nat) (r : Except Error Ctx)
    (tr : List Event) :
    (fmt_input_with_dictionary env p = some (r, tr) → dictReclaimed tr = true) ∧
    (fmt_open_with env .Input p = some (r, tr) → dictReclaimed tr = true) ∧
    (env.alloc_output_context2_ret = 0 →
      fmt_output_with env p = some (r, tr) → dictReclaimed tr = true) ∧
    (env.alloc_output_context2_ret ≠ 0 →
      fmt_output_with env p = some (r, tr) → dictReclaimed tr = false) ∧
    (env.alloc_output_context2_ret = 0 →
      fmt_output_as_with env p f = some (r, tr) → dictReclaimed tr = true) ∧
    (env.alloc_output_context2_ret ≠ 0 →
      fmt_output_as_with env p f = some (r, tr) → dictReclaimed tr = false) ∧
    (fmt_open_with env .Output p = some (r, tr) → dictReclaimed tr = false) := by
  rcases hfp : from_path p with _ | c <;>
    rcases hff : cstring_new f with _ | d <;>
      refine ⟨fun h => ?_, fun h => ?_, fun ha h => ?_, fun ha h => ?_,
        fun ha h => ?_, fun ha h => ?_, fun h => ?_⟩ <;>
    simp only [fmt_input_with_dictionary, fmt_open_with, fmt_output_with,
      fmt_output_as_with, hfp, hff] at h <;>
    (repeat' split at h) <;>
    first
      | (rw [Option.some.injEq, Prod.mk.injEq] at h;
         obtain ⟨h1, h2⟩ := h; subst h1; subst h2; rfl)
      | simp_all

/-- C1 witness: a concrete run of `input_with_dictionary` in which every
native call succeeds; the trace reclaims the dictionary. -/
theorem C1_witness :
    dictReclaimed
      [.dict_disown, .avformat_open_input 0 true, .dict_own,
       .avformat_find_stream_info 0, .wrap_input] = true :=
  (C1_theorem envZero [65] [] (.ok .input)
      [.dict_disown, .avformat_open_input 0 true, .dict_own,
       .avformat_find_stream_info 0, .wrap_input]).1 rfl

/-- C2 counterexample: `open` with an input format, in an environment
where `avformat_open_input` succeeds and `avformat_find_stream_info`
fails, returns the error without calling `avformat_close_input`: the
just-allocated context is leaked on this error path. -/
theorem C2_counterexample :
    (fmt_open envProbeFail .Input [65]).map
      (fun x => (x.1, closedInput x.2, ctxLeaked x.2)) =
      some (.error (Error.fromCode (-1)), false, true) := by
  rfl

/-- C2 (amended): when the native open succeeds and stream-metadata
discovery fails, `input`, `input_with_dictionary` and
`input_with_interrupt` close the just-allocated context with
`avformat_close_input` before returning the error; `open` and `open_with`
with an input format return the error without closing it, leaking the
context. -/
theorem C2_theorem (env : NativeEnv) (p : List Nat) (r : Except Error Ctx)
    (tr : List Event) (h0 : env.open_input_ret = 0)
    (h1 : env.find_stream_info_ret < 0) :
    (fmt_input env p = some (r, tr) →
      r = .error (Error.fromCode env.find_stream_info_ret) ∧
        closedInput tr = true ∧ ctxLeaked tr = false) ∧
    (fmt_input_with_dictionary env p = some (r, tr) →
      r = .error (Error.fromCode env.find_stream_info_ret) ∧
        closedInput tr = true ∧ ctxLeaked tr = false) ∧
    (fmt_input_with_interrupt env p = some (r, tr) →
      r = .error (Error.fromCode env.find_stream_info_ret) ∧
        closedInput tr = true ∧ ctxLeaked tr = false) ∧
    (fmt_open env .Input p = some (r, tr) →
      r = .error (Error.fromCode env.find_stream_info_ret) ∧
        closedInput tr = false ∧ ctxLeaked tr = true) ∧
    (fmt_open_with env .Input p = some (r, tr) →
      r = .error (Error.fromCode env.find_stream_info_ret) ∧
        closedInput tr = false ∧ ctxLeaked tr = true) := by
  rcases hfp : from_path p with _ | c <;>
    refine ⟨fun h => ?_, fun h => ?_, fun h => ?_, fun h => ?_, fun h => ?_⟩ <;>
    simp only [fmt_input, fmt_input_with_dictionary, fmt_input_with_interrupt,
      fmt_open, fmt_open_with, hfp] at h <;>
    (repeat' split at h) <;>
    first
      | (rw [Option.some.injEq, Prod.mk.injEq] at h;
         obtain ⟨h1', h2'⟩ := h; subst h1'; subst h2'; exact ⟨rfl, rfl, rfl⟩)
      | (simp_all; done)
      | (exfalso; omega)


/-- C2 witness: a concrete run of `input` whose probe step fails; the
trace closes the context before the error is returned. -/
theorem C2_witness :
    (Except.error (Error.fromCode (-1)) : Except Error Ctx) =
        .error (Error.fromCode (-1)) ∧
      closedInput
        [.avformat_open_input 0 false, .avformat_find_stream_info (-1),
         .avformat_close_input] = true ∧
      ctxLeaked
        [.avformat_open_input 0 false, .avformat_find_stream_info (-1),
         .avformat_close_input] = false :=
  (C2_theorem envProbeFail [65] (.error (Error.fromCode (-1)))
      [.avformat_open_input 0 false, .avformat_find_stream_info (-1),
       .avformat_close_input] (by decide) (by decide)).1 rfl

/-- C3: for every output-opening operation, when output-context
allocation succeeds and opening the byte sink fails, the translated error
is returned and the allocated context is neither closed nor transferred
into an owning handle: it is leaked. -/
theorem C3_theorem (env : NativeEnv) (p f : List Nat) (r : Except Error Ctx)
    (tr : List Event) (ha : env.alloc_output_context2_ret = 0) :
    (env.avio_open_ret ≠ 0 → fmt_output env p = some (r, tr) →
      r = .error (Error.fromCode env.avio_open_ret) ∧ ctxLeaked tr = true) ∧
    (env.avio_open2_ret ≠ 0 → fmt_output_with env p = some (r, tr) →
      r = .error (Error.fromCode env.avio_open2_ret) ∧ ctxLeaked tr = true) ∧
    (env.avio_open_ret ≠ 0 → fmt_output_as env p f = some (r, tr) →
      r = .error (Error.fromCode env.avio_open_ret) ∧ ctxLeaked tr = true) ∧
    (env.avio_open2_ret ≠ 0 → fmt_output_as_with env p f = some (r, tr) →
      r = .error (Error.fromCode env.avio_open2_ret) ∧ ctxLeaked tr = true) ∧
    (env.avio_open_ret ≠ 0 → fmt_open env .Output p = some (r, tr) →
      r = .error (Error.fromCode env.avio_open_ret) ∧ ctxLeaked tr = true) ∧
    (env.avio_open_ret ≠ 0 → fmt_open_with env .Output p = some (r, tr) →
      r = .error (Error.fromCode env.avio_open_ret) ∧ ctxLeaked tr = true) := by
  rcases hfp : from_path p with _ | c <;>
    rcases hff : cstring_new f with _ | d <;>
      refine ⟨fun hs h => ?_, fun hs h => ?_, fun hs h => ?_, fun hs h => ?_,
        fun hs h => ?_, fun hs h => ?_⟩ <;>
    simp only [fmt_output, fmt_output_with, fmt_output_as, fmt_output_as_with,
      fmt_open, fmt_open_with, hfp, hff] at h <;>
    (repeat' split at h) <;>
    first
      | (rw [Option.some.injEq, Prod.mk.injEq] at h;
         obtain ⟨h1, h2⟩ := h; subst h1; subst h2; exact ⟨rfl, rfl⟩)
      | simp_all

/-- C3 witness: a concrete run of `output` whose sink-open fails with
`-5`; the error carries the native code and the context is leaked. -/
theorem C3_witness :
    (Except.error (Error.fromCode (-5)) : Except Error Ctx) =
        .error (Error.fromCode (-5)) ∧
      ctxLeaked [.avformat_alloc_output_context2 0, .avio_open (-5)] = true :=
  (C3_theorem envSinkFail [65] [] (.error (Error.fromCode (-5)))
      [.avformat_alloc_output_context2 0, .avio_open (-5)] (by decide)).1
    (by decide) rfl

/-- C4 counterexample: `avformat_find_stream_info` returning the non-zero
value `1` is treated as success by `input`: a non-zero native return is
not converted into an error here, because the probe call succeeds on any
non-negative value. -/
theorem C4_counterexample :
    fmt_input envProbePos [65] =
      some (.ok .input,
        [.avformat_open_input 0 false, .avformat_find_stream_info 1,
         .wrap_input]) := by
  rfl

/-- C4 (amended): for `avformat_open_input`,
`avformat_alloc_output_context2`, `avio_open` and `avio_open2`, zero is
success and any non-zero return is immediately converted by `Error::from`
into the structured error carrying the native code and returned, with no
retry — the failing call is the last native call of the trace, except for
the input-path cleanup close (and, after a failing `avio_open2`, the
non-native dictionary reclaim); for `avformat_find_stream_info` any
non-negative return is success and only negative returns are converted
into errors. -/
theorem C4_theorem (env : NativeEnv) (p : List Nat)
    (hp : p.contains 0 = false) :
    (env.open_input_ret ≠ 0 →
      fmt_input env p =
        some (.error (Error.fromCode env.open_input_ret),
          [.avformat_open_input env.open_input_ret false])) ∧
    (env.open_input_ret = 0 → env.find_stream_info_ret < 0 →
      fmt_input env p =
        some (.error (Error.fromCode env.find_stream_info_ret),
          [.avformat_open_input 0 false,
           .avformat_find_stream_info env.find_stream_info_ret,
           .avformat_close_input])) ∧
    (env.open_input_ret = 0 → env.find_stream_info_ret ≥ 0 →
      fmt_input env p =
        some (.ok .input,
          [.avformat_open_input 0 false,
           .avformat_find_stream_info env.find_stream_info_ret,
           .wrap_input])) ∧
    (env.alloc_output_context2_ret ≠ 0 →
      fmt_output env p =
        some (.error (Error.fromCode env.alloc_output_context2_ret),
          [.avformat_alloc_output_context2 env.alloc_output_context2_ret])) ∧
    (env.alloc_output_context2_ret = 0 → env.avio_open_ret ≠ 0 →
      fmt_output env p =
        some (.error (Error.fromCode env.avio_open_ret),
          [.avformat_alloc_output_context2 0,
           .avio_open env.avio_open_ret])) ∧
    (env.alloc_output_context2_ret = 0 → env.avio_open_ret = 0 →
      fmt_output env p =
        some (.ok .output,
          [.avformat_alloc_output_context2 0, .avio_open 0,
           .wrap_output])) ∧
    (env.alloc_output_context2_ret = 0 → env.avio_open2_ret ≠ 0 →
      fmt_output_with env p =
        some (.error (Error.fromCode env.avio_open2_ret),
          [.dict_disown, .avformat_alloc_output_context2 0,
           .avio_open2 env.avio_open2_ret true, .dict_own])) ∧
    (env.alloc_output_context2_ret = 0 → env.avio_open2_ret = 0 →
      fmt_output_with env p =
        some (.ok .output,
          [.dict_disown, .avformat_alloc_output_context2 0,
           .avio_open2 0 true, .dict_own, .wrap_output])) := by
  have hp' : 0 ∉ p := by simpa using hp
  have hfp : from_path p = some (p ++ [0]) := by
    simp [from_path, cstring_new, hp']
  refine ⟨fun h1 => ?_, fun h1 h2 => ?_, fun h1 h2 => ?_, fun h1 => ?_,
    fun h1 h2 => ?_, fun h1 h2 => ?_, fun h1 h2 => ?_, fun h1 h2 => ?_⟩
  · simp [fmt_input, hfp, h1]
  · simp [fmt_input, hfp, h1, not_le.mpr h2]
  · simp [fmt_input, hfp, h1, h2]
  · simp [fmt_output, hfp, h1]
  · simp [fmt_output, hfp, h1, h2]
  · simp [fmt_output, hfp, h1, h2]
  · simp [fmt_output_with, hfp, h1, h2]
  · simp [fmt_output_with, hfp, h1, h2]

/-- C4 witness: `avformat_open_input` failing with `-2` makes `input`
return the structured error carrying `-2`, the failing call being the
only native call performed. -/
theorem C4_witness :
    fmt_input envOpenFail [65] =
      some (.error (Error.fromCode (-2)),
        [.avformat_open_input (-2) false]) :=
  (C4_theorem envOpenFail [65] rfl).1 (by decide)

/-- C5 counterexample: `open_with` called with an output format opens the
byte sink with plain `avio_open`; the supplied options dictionary is not
threaded into the sink-open call through `avio_open2`. -/
theorem C5_counterexample :
    (fmt_open_with envZero .Output [66]).map
      (fun x => (sinkViaOpen2Dict x.2, sinkViaOpen x.2)) =
      some (false, true) := by
  decide

/-- C5 (amended): when allocation succeeds, `output_with` and
`output_as_with` open the byte sink via `avio_open2`, threading the
options dictionary through the ownership bridge; `open_with` called with
an output format instead opens the sink via plain `avio_open` without the
dictionary. -/
theorem C5_theorem (env : NativeEnv) (p f : List Nat) (r : Except Error Ctx)
    (tr : List Event) (ha : env.alloc_output_context2_ret = 0) :
    (fmt_output_with env p = some (r, tr) → sinkViaOpen2Dict tr = true) ∧
    (fmt_output_as_with env p f = some (r, tr) → sinkViaOpen2Dict tr = true) ∧
    (fmt_open_with env .Output p = some (r, tr) →
      sinkViaOpen2Dict tr = false ∧ sinkViaOpen tr = true) := by
  rcases hfp : from_path p with _ | c <;>
    rcases hff : cstring_new f with _ | d <;>
      refine ⟨fun h => ?_, fun h => ?_, fun h => ?_⟩ <;>
    simp only [fmt_output_with, fmt_output_as_with, fmt_open_with, hfp,
      hff] at h <;>
    (repeat' split at h) <;>
    first
      | (rw [Option.some.injEq, Prod.mk.injEq] at h;
         obtain ⟨h1, h2⟩ := h; subst h1; subst h2;
         first
           | exact ⟨rfl, rfl⟩
           | rfl)
      | simp_all

/-- C5 witness: a concrete successful run of `output_with`; the trace
opens the sink via `avio_open2` with the dictionary attached. -/
theorem C5_witness :
    sinkViaOpen2Dict
      [.dict_disown, .avformat_alloc_output_context2 0, .avio_open2 0 true,
       .dict_own, .wrap_output] = true :=
  (C5_theorem envZero [66] [] (.ok .output)
      [.dict_disown, .avformat_alloc_output_context2 0, .avio_open2 0 true,
       .dict_own, .wrap_output] rfl).1 rfl

/-- C6 counterexample: a format name containing a null byte makes
`output_as` (and `output_as_with`) panic in `CString::new(format).unwrap()`
— modelled as `none` — so no error value of any kind, encoding or
otherwise, is returned to the caller. -/
theorem C6_counterexample :
    fmt_output_as envZero [65] [0] = none ∧
      fmt_output_as_with envZero [65] [0] = none :=
  ⟨rfl, rfl⟩

/-- C6 (amended): if the supplied format name is not convertible to a
null-terminated byte string (it contains a null byte), `output_as` and
`output_as_with` fail fatally — the `unwrap` panic aborts the operation —
rather than returning an encoding error value to the caller. -/
theorem C6_theorem (env : NativeEnv) (p f : List Nat)
    (hf : f.contains 0 = true) :
    fmt_output_as env p f = none ∧ fmt_output_as_with env p f = none := by
  have hf' : 0 ∈ f := by simpa using hf
  rcases hfp : from_path p with _ | c <;>
    constructor <;>
    simp [fmt_output_as, fmt_output_as_with, hfp, cstring_new, hf']

/-- C6 witness: the concrete format name consisting of one null byte
aborts both by-name output functions. -/
theorem C6_witness :
    fmt_output_as envSinkFail [65] [0] = none ∧
      fmt_output_as_with envSinkFail [65] [0] = none :=
  C6_theorem envSinkFail [65] [0] rfl

/-- C7: a path whose OS-level byte representation contains an embedded
null terminator makes `from_path` fail fatally (the `unwrap` panic,
modelled as `none`), aborting every calling open operation rather than
returning an error value; on the non-POSIX variant a path that is not
representable as valid text likewise panics. -/
theorem C7_theorem (env : NativeEnv) (fv : Format) (bytes f : List Nat)
    (hb : bytes.contains 0 = true) :
    from_path bytes = none ∧
    from_path_nonunix none = none ∧
    fmt_open env fv bytes = none ∧
    fmt_open_with env fv bytes = none ∧
    fmt_input env bytes = none ∧
    fmt_input_with_dictionary env bytes = none ∧
    fmt_input_with_interrupt env bytes = none ∧
    fmt_output env bytes = none ∧
    fmt_output_with env bytes = none ∧
    fmt_output_as env bytes f = none ∧
    fmt_output_as_with env bytes f = none := by
  have hb' : 0 ∈ bytes := by simpa using hb
  have hfp : from_path bytes = none := by simp [from_path, cstring_new, hb']
  refine ⟨hfp, rfl, ?_, ?_, ?_, ?_, ?_, ?_, ?_, ?_, ?_⟩ <;>
    simp [fmt_open, fmt_open_with, fmt_input, fmt_input_with_dictionary,
      fmt_input_with_interrupt, fmt_output, fmt_output_with, fmt_output_as,
      fmt_output_as_with, hfp]

/-- C7 witness: the concrete path bytes `[47, 0, 97]` contain an embedded
null; the conversion and a calling open operation both abort. -/
theorem C7_witness :
    from_path [47, 0, 97] = none ∧ fmt_input envZero [47, 0, 97] = none :=
  ⟨(C7_theorem envZero .Input [47, 0, 97] [109] rfl).1,
   (C7_theorem envZero .Input [47, 0, 97] [109] rfl).2.2.2.2.1⟩

/-- C8: `input_with_interrupt` pre-allocates a context with
`avformat_alloc_context` and installs the interrupt callback on it before
`avformat_open_input` runs; apart from these two leading steps its result
and its open/probe/cleanup event sequence coincide with those of plain
`input` in every environment. -/
theorem C8_theorem (env : NativeEnv) (p : List Nat) :
    fmt_input_with_interrupt env p =
      (fmt_input env p).map
        (fun x =>
          (x.1,
            .avformat_alloc_context :: .set_interrupt_callback :: x.2)) := by
  rcases hfp : from_path p with _ | c <;>
    by_cases h0 : env.open_input_ret = 0 <;>
      by_cases h1 : env.find_stream_info_ret ≥ 0 <;>
        simp [fmt_input_with_interrupt, fmt_input, hfp, h0, h1]

/-- C9: for flag values whose bits lie within the declared constant set
of the packet, resample, or frame `Flags` type, bitwise union and
intersection round-trip through the underlying integer representation
without loss: reconstructing a flag value from the bits of the result —
through the checked or the truncating constructor — yields it back
unchanged. -/
theorem C9_theorem (all a b : Nat)
    (hall : all = packet_ALL ∨ all = resample_ALL ∨ all = frame_ALL)
    (ha : a &&& all = a) (hb : b &&& all = b) :
    from_bits all (flags_union a b) = some (flags_union a b) ∧
    from_bits_truncate all (flags_union a b) = flags_union a b ∧
    from_bits all (flags_inter a b) = some (flags_inter a b) ∧
    from_bits_truncate all (flags_inter a b) = flags_inter a b := by
  have ha' : a ≤ all := by
    have h1 : a &&& all ≤ all := Nat.and_le_right
    rwa [ha] at h1
  have hb' : b ≤ all := by
    have h1 : b &&& all ≤ all := Nat.and_le_right
    rwa [hb] at h1
  rcases hall with h | h | h <;> subst h
  · have ha2 : a ≤ 3 := le_trans ha' (by decide)
    have hb2 : b ≤ 3 := le_trans hb' (by decide)
    interval_cases a <;> interval_cases b <;> decide
  · have ha2 : a ≤ 1 := le_trans ha' (by decide)
    have hb2 : b ≤ 1 := le_trans hb' (by decide)
    interval_cases a <;> interval_cases b <;> decide
  · have ha2 : a ≤ 1 := le_trans ha' (by decide)
    have hb2 : b ≤ 1 := le_trans hb' (by decide)
    interval_cases a <;> interval_cases b <;> decide

/-- C9 witness: the union and intersection of the packet flags `KEY` and
`CORRUPT` round-trip through their integer bits. -/
theorem C9_witness :
    from_bits packet_ALL (flags_union AV_PKT_FLAG_KEY AV_PKT_FLAG_CORRUPT) =
        some (flags_union AV_PKT_FLAG_KEY AV_PKT_FLAG_CORRUPT) ∧
      from_bits_truncate packet_ALL
          (flags_union AV_PKT_FLAG_KEY AV_PKT_FLAG_CORRUPT) =
        flags_union AV_PKT_FLAG_KEY AV_PKT_FLAG_CORRUPT ∧
      from_bits packet_ALL
          (flags_inter AV_PKT_FLAG_KEY AV_PKT_FLAG_CORRUPT) =
        some (flags_inter AV_PKT_FLAG_KEY AV_PKT_FLAG_CORRUPT) ∧
      from_bits_truncate packet_ALL
          (flags_inter AV_PKT_FLAG_KEY AV_PKT_FLAG_CORRUPT) =
        flags_inter AV_PKT_FLAG_KEY AV_PKT_FLAG_CORRUPT :=
  C9_theorem packet_ALL AV_PKT_FLAG_KEY AV_PKT_FLAG_CORRUPT (Or.inl rfl)
    (by decide) (by decide)

/-- C10: construction of a flag value from native integer bits through
the truncating constructor cannot fail: for every input it yields a value
lying within the declared constant set (the checked constructor accepts
the result), bits outside the declared set are masked away, and an input
already within the declared set is preserved unchanged — for each of the
packet, resample and frame flag types. -/
theorem C10_theorem (b : Nat) :
    (from_bits packet_ALL (from_bits_truncate packet_ALL b) =
        some (from_bits_truncate packet_ALL b) ∧
      (b &&& packet_ALL = b → from_bits_truncate packet_ALL b = b)) ∧
    (from_bits resample_ALL (from_bits_truncate resample_ALL b) =
        some (from_bits_truncate resample_ALL b) ∧
      (b &&& resample_ALL = b → from_bits_truncate resample_ALL b = b)) ∧
    (from_bits frame_ALL (from_bits_truncate frame_ALL b) =
        some (from_bits_truncate frame_ALL b) ∧
      (b &&& frame_ALL = b → from_bits_truncate frame_ALL b = b)) := by
  refine ⟨⟨?_, fun hb => ?_⟩, ⟨?_, fun hb => ?_⟩, ⟨?_, fun hb => ?_⟩⟩
  · simp [from_bits, from_bits_truncate, Nat.and_assoc,
      (by decide : packet_ALL &&& packet_ALL = packet_ALL)]
  · simpa [from_bits_truncate] using hb
  · simp [from_bits, from_bits_truncate, Nat.and_assoc,
      (by decide : resample_ALL &&& resample_ALL = resample_ALL)]
  · simpa [from_bits_truncate] using hb
  · simp [from_bits, from_bits_truncate, Nat.and_assoc,
      (by decide : frame_ALL &&& frame_ALL = frame_ALL)]
  · simpa [from_bits_truncate] using hb

/-- C10 witness: the bits `7` contain a bit outside the declared packet
set; construction still yields a valid in-set value, and the in-set
input `2` is preserved unchanged. -/
theorem C10_witness :
    from_bits packet_ALL (from_bits_truncate packet_ALL 7) =
        some (from_bits_truncate packet_ALL 7) ∧
      from_bits_truncate packet_ALL 2 = 2 :=
  ⟨(C10_theorem 7).1.1, (C10_theorem 2).1.2 (by decide)⟩
